import Mathlib

/-!
Verification of the satellite-dashboard state machine (`src/App.tsx`).

The component owns six pieces of state: the satellite registry, the active
alert collection, the executed-action log, and the three pending form input
strings.  We embed that state and the three mutating operations
(`addSatellite`, the delayed hazard-evaluation task, `executeAction`) as pure
Lean functions.  Nondeterministic or external inputs of the JavaScript code —
`Date.now()` timestamps, `Math.random()` draws, and the HTTP feed response —
become explicit parameters.  JavaScript numbers are modelled as `Option ℚ`
(`none` standing for `NaN`, the result of `parseFloat` on an unparsable
string); the decimal literal `0.4` is modelled exactly as `2/5`.
-/

/-- A registered satellite (`type Satellite` in the source).  `id` is the
`Date.now()` millisecond timestamp at creation.  `altitude` and `inclination`
hold `parseFloat` results, so `none` models `NaN`. -/
structure Satellite where
  id : Nat
  name : String
  altitude : Option ℚ
  inclination : Option ℚ
deriving DecidableEq, Repr

/-- A hazard alert (`type Alert` in the source). -/
structure Alert where
  id : Nat
  satelliteId : Nat
  message : String
  action : String
  executed : Bool
deriving DecidableEq, Repr

/-- The component state: `satellites`, `alerts`, `executedActions` plus the
three controlled form inputs `name`, `altitude`, `inclination` (strings). -/
structure AppState where
  satellites : List Satellite
  alerts : List Alert
  executedActions : List String
  name : String
  altitude : String
  inclination : String
deriving DecidableEq, Repr

/-- Numeric value of a decimal digit character. -/
def digitVal (c : Char) : Nat := c.toNat - 48

/-- Value of a list of decimal digit characters, most significant first. -/
def natOfDigits (l : List Char) : Nat :=
  l.foldl (fun acc c => acc * 10 + digitVal c) 0

/-- Model of JavaScript `parseFloat` at exact-rational precision: skip leading
whitespace, optional sign, integer digits, optional fractional part, optional
exponent; trailing garbage is ignored; `none` models the `NaN` result when no
leading number can be parsed.  (The `Infinity` literal, which the claims never
exercise, is not modelled.) -/
def parseFloat (s : String) : Option ℚ :=
  let l0 := s.data.dropWhile Char.isWhitespace
  let sgn : ℚ := match l0 with
    | '-' :: _ => -1
    | _ => 1
  let l1 := match l0 with
    | '-' :: rest => rest
    | '+' :: rest => rest
    | _ => l0
  let ip := l1.takeWhile Char.isDigit
  let l2 := l1.dropWhile Char.isDigit
  let fp := match l2 with
    | '.' :: rest => rest.takeWhile Char.isDigit
    | _ => []
  let l3 := match l2 with
    | '.' :: rest => rest.dropWhile Char.isDigit
    | _ => l2
  if ip.isEmpty ∧ fp.isEmpty then none
  else
    let mantissa : ℚ :=
      sgn * ((natOfDigits ip : ℚ) + (natOfDigits fp : ℚ) / (10 : ℚ) ^ fp.length)
    let expo : Option Int := match l3 with
      | c :: rest =>
        if c = 'e' ∨ c = 'E' then
          let esgn : Int := match rest with
            | '-' :: _ => -1
            | _ => 1
          let rest2 := match rest with
            | '-' :: r => r
            | '+' :: r => r
            | _ => rest
          let ed := rest2.takeWhile Char.isDigit
          if ed.isEmpty then none else some (esgn * (natOfDigits ed : Int))
        else none
      | [] => none
    match expo with
    | some e => some (mantissa * (10 : ℚ) ^ e)
    | none => some mantissa

/-- Model of JavaScript `String.prototype.includes`: `pat` occurs as a
contiguous substring of `s`. -/
def containsSub (s pat : String) : Bool :=
  s.data.tails.any (fun t => pat.data.isPrefixOf t)

/-- `fetchCMEAlerts` from the source.  The feed response is `some msgs` (an
advisory list, each advisory represented by its `message` text) on success and
`none` on any failure (network error or malformed response), in which case the
`catch` branch returns the empty list.  On success the code keeps the messages
containing the substring `"Coronal Mass Ejection"`, in feed order. -/
def fetchCMEAlerts (feed : Option (List String)) : List String :=
  match feed with
  | none => []
  | some msgs => msgs.filter (fun m => containsSub m "Coronal Mass Ejection")

/-- `simulateConjunctionAlert` from the source.  `chance` and `r2` are the two
`Math.random()` draws (values in `[0,1)`), `now` the `Date.now()` timestamp:
the alert id is `now + ⌊r2 * 1000⌋`. -/
def simulateConjunctionAlert (satelliteId : Nat) (chance r2 : ℚ) (now : Nat) :
    Option Alert :=
  if chance < 2/5 then none
  else some
    { id := now + (⌊r2 * 1000⌋).toNat
      satelliteId := satelliteId
      message := "Conjunction alert: Possible collision with space debris!"
      action := "Perform evasive maneuver or adjust orbit"
      executed := false }

/-- The synchronous part of `addSatellite` from the source: if any of the three
input strings is empty (JavaScript falsiness of a string) nothing happens;
otherwise a satellite with id `Date.now()` (the `now` parameter) and the
`parseFloat` of the numeric fields is appended and the inputs are cleared.  The
second component models the scheduled delayed hazard-evaluation task: `some i`
means a task was scheduled for the satellite with id `i`, `none` that no task
was scheduled. -/
def addSatellite (s : AppState) (now : Nat) : AppState × Option Nat :=
  if s.name = "" ∨ s.altitude = "" ∨ s.inclination = "" then (s, none)
  else
    let newSat : Satellite :=
      { id := now
        name := s.name
        altitude := parseFloat s.altitude
        inclination := parseFloat s.inclination }
    ({ s with
        satellites := s.satellites ++ [newSat]
        name := ""
        altitude := ""
        inclination := "" },
      some newSat.id)

/-- The body of the `setTimeout` callback in `addSatellite`: the delayed
hazard-evaluation task for the satellite with id `satId`.  `feed` is the feed
response, `nowCme` the `Date.now()` value used for the CME alert id, `chance`
and `r2` the two random draws and `nowConj` the timestamp used inside
`simulateConjunctionAlert`. -/
def hazardTask (satId : Nat) (feed : Option (List String)) (nowCme : Nat)
    (chance r2 : ℚ) (nowConj : Nat) (s : AppState) : AppState :=
  let cmeMessages := fetchCMEAlerts feed
  let s1 :=
    if 0 < cmeMessages.length then
      { s with alerts := s.alerts ++
          [{ id := nowCme
             satelliteId := satId
             message := cmeMessages.headD ""
             action := "Switch off non-critical electronics and shield instruments"
             executed := false }] }
    else s
  match simulateConjunctionAlert satId chance r2 nowConj with
  | some a => { s1 with alerts := s1.alerts ++ [a] }
  | none => s1

/-- The satellite-name lookup inside `executeAction`:
`satellites.find(s => s.id === alert.satelliteId)?.name || 'Unknown Satellite'`.
JavaScript `||` also replaces an empty found name, since `""` is falsy. -/
def resolveSatName (sats : List Satellite) (sid : Nat) : String :=
  match sats.find? (fun sat => sat.id == sid) with
  | some sat => if sat.name = "" then "Unknown Satellite" else sat.name
  | none => "Unknown Satellite"

/-- `executeAction` from the source.  Note that the guard reads the `executed`
flag of the alert value passed by the caller; the state update marks the
matching list entries (a fresh copy each) as executed and then filters every
entry with the same id out of the active collection. -/
def executeAction (alert : Alert) (s : AppState) : AppState :=
  if alert.executed then s
  else
    let satName := resolveSatName s.satellites alert.satelliteId
    let log := "✅ Action executed for " ++ satName ++ ": " ++ alert.action
    { s with
        executedActions := s.executedActions ++ [log]
        alerts := (s.alerts.map
            (fun a => if a.id == alert.id then { a with executed := true } else a)).filter
          (fun a => a.id != alert.id) }

/-- The empty initial state of the component. -/
def st0 : AppState := ⟨[], [], [], "", "", ""⟩

example : (parseFloat "3.5").isSome = true := by decide
example : parseFloat "abc" = none := by decide
example : (parseFloat "-2").isSome = true := by decide
example : containsSub "a Coronal Mass Ejection hit" "Coronal Mass Ejection" = true := by
  decide
example : containsSub "quiet sun" "Coronal Mass Ejection" = false := by decide

/-! ### Helper lemmas shared by the claim theorems -/

lemma filter_out_marked (aid : Nat) (l : List Alert) :
    (l.map (fun b => if b.id == aid then { b with executed := true } else b)).filter
        (fun b => b.id != aid) =
      l.filter (fun b => b.id != aid) := by
  induction l with
  | nil => rfl
  | cons hd tl ih =>
    simp only [List.map_cons, List.filter_cons]
    by_cases hid : hd.id = aid
    · have h1 : (hd.id == aid) = true := beq_iff_eq.mpr hid
      have h2 : (({ hd with executed := true } : Alert).id != aid) = false := by
        simp [hid]
      have h3 : (hd.id != aid) = false := by simp [hid]
      simp only [h1, if_true, h2, h3, Bool.false_eq_true, if_false, ih]
    · have h1 : (hd.id == aid) = false := by simp [hid]
      have h3 : (hd.id != aid) = true := by simp [hid]
      simp only [h1, Bool.false_eq_true, if_false, h3, if_true, ih]

lemma executeAction_alerts_eq (a : Alert) (s : AppState) (h : a.executed = false) :
    (executeAction a s).alerts = s.alerts.filter (fun b => b.id != a.id) := by
  simp only [executeAction, h, Bool.false_eq_true, if_false]
  exact filter_out_marked a.id s.alerts

lemma executeAction_satellites_eq (a : Alert) (s : AppState) :
    (executeAction a s).satellites = s.satellites := by
  unfold executeAction; split <;> rfl

lemma executeAction_name_eq (a : Alert) (s : AppState) :
    (executeAction a s).name = s.name := by
  unfold executeAction; split <;> rfl

lemma executeAction_altitude_eq (a : Alert) (s : AppState) :
    (executeAction a s).altitude = s.altitude := by
  unfold executeAction; split <;> rfl

lemma executeAction_inclination_eq (a : Alert) (s : AppState) :
    (executeAction a s).inclination = s.inclination := by
  unfold executeAction; split <;> rfl

lemma executeAction_log_eq (a : Alert) (s : AppState) (h : a.executed = false) :
    (executeAction a s).executedActions = s.executedActions ++
      ["✅ Action executed for " ++ resolveSatName s.satellites a.satelliteId ++
        ": " ++ a.action] := by
  simp [executeAction, h]

lemma addSatellite_of_valid (s : AppState) (now : Nat)
    (h1 : s.name ≠ "") (h2 : s.altitude ≠ "") (h3 : s.inclination ≠ "") :
    addSatellite s now =
      ({ s with
          satellites := s.satellites ++
            [⟨now, s.name, parseFloat s.altitude, parseFloat s.inclination⟩]
          name := ""
          altitude := ""
          inclination := "" },
        some now) := by
  simp [addSatellite, h1, h2, h3]

/-! ### C10 -/

/-- C10: `executeAction` never changes the satellite registry or the pending
form inputs, and (for a not-yet-executed alert) replaces the active collection
by its id-based filtrate: every active alert whose id equals the executed
alert's id is removed in the same transition. -/
theorem executeAction_frame_and_id_filter (a : Alert) (s : AppState) :
    (executeAction a s).satellites = s.satellites ∧
    (executeAction a s).name = s.name ∧
    (executeAction a s).altitude = s.altitude ∧
    (executeAction a s).inclination = s.inclination ∧
    (a.executed = false →
      (executeAction a s).alerts = s.alerts.filter (fun b => b.id != a.id)) :=
  ⟨executeAction_satellites_eq a s, executeAction_name_eq a s,
    executeAction_altitude_eq a s, executeAction_inclination_eq a s,
    fun h => executeAction_alerts_eq a s h⟩

/-- Witness for C10 at a concrete state holding two distinct active alerts that
share id `1`: a single execution removes both of them. -/
theorem executeAction_frame_and_id_filter_witness :
    (executeAction ⟨1, 5, "m", "act", false⟩
        ⟨[], [⟨1, 5, "m", "act", false⟩, ⟨1, 6, "m2", "act2", false⟩], [],
          "", "", ""⟩).alerts = [] :=
  ((executeAction_frame_and_id_filter ⟨1, 5, "m", "act", false⟩
      ⟨[], [⟨1, 5, "m", "act", false⟩, ⟨1, 6, "m2", "act2", false⟩], [],
        "", "", ""⟩).2.2.2.2 rfl).trans (by decide)

/-! ### C1 -/

lemma filter_out_unique_id_length (aid : Nat) (l : List Alert)
    (h : l.countP (fun b => b.id == aid) = 1) :
    (l.filter (fun b => b.id != aid)).length + 1 = l.length := by
  induction l with
  | nil => simp at h
  | cons hd tl ih =>
    rw [List.countP_cons] at h
    by_cases hid : hd.id = aid
    · have h1 : (hd.id == aid) = true := beq_iff_eq.mpr hid
      have htl : tl.countP (fun b => b.id == aid) = 0 := by
        simp only [h1, if_true] at h; omega
      have hall : ∀ b ∈ tl, (b.id != aid) = true := by
        intro b hb
        have hb2 := List.countP_eq_zero.mp htl b hb
        simp only [bne_iff_ne, ne_eq]
        simpa using hb2
      have hfeq : tl.filter (fun b => b.id != aid) = tl :=
        List.filter_eq_self.mpr hall
      have h2 : (hd.id != aid) = false := by simp [hid]
      rw [List.filter_cons, h2]
      simp only [Bool.false_eq_true, if_false]
      rw [hfeq, List.length_cons]
    · have h1 : (hd.id == aid) = false := by simp [hid]
      have htl : tl.countP (fun b => b.id == aid) = 1 := by
        simp only [h1, Bool.false_eq_true, if_false] at h; omega
      have h2 : (hd.id != aid) = true := by simp [hid]
      rw [List.filter_cons, h2]
      simp only [if_true, List.length_cons]
      have h3 := ih htl
      omega

/-- C1 (amended: the executed alert's id must not be shared by another active
alert): executing a pending active alert appends exactly one log entry —
success marker, resolved satellite name, the alert's action text — shrinks the
active collection by exactly one element, and leaves the alert absent from it. -/
theorem executeAction_pending_once (a : Alert) (s : AppState)
    (hmem : a ∈ s.alerts) (hex : a.executed = false)
    (huniq : s.alerts.countP (fun b => b.id == a.id) = 1) :
    (executeAction a s).executedActions = s.executedActions ++
      ["✅ Action executed for " ++ resolveSatName s.satellites a.satelliteId ++
        ": " ++ a.action] ∧
    (executeAction a s).alerts.length + 1 = s.alerts.length ∧
    a ∉ (executeAction a s).alerts := by
  refine ⟨executeAction_log_eq a s hex, ?_, ?_⟩
  · rw [executeAction_alerts_eq a s hex]
    exact filter_out_unique_id_length a.id s.alerts huniq
  · intro hmem2
    rw [executeAction_alerts_eq a s hex] at hmem2
    have h2 := (List.mem_filter.mp hmem2).2
    simp at h2

/-- C1 counterexample: two distinct active alerts share id `0`; executing the
first (pending, present) one removes both, so the collection shrinks by two,
not by exactly one as the claim states. -/
theorem executeAction_duplicate_id_cex :
    (⟨0, 0, "m", "act", false⟩ : Alert).executed = false ∧
    (⟨0, 0, "m", "act", false⟩ : Alert) ∈
      (⟨[], [⟨0, 0, "m", "act", false⟩, ⟨0, 1, "m2", "act2", false⟩], [],
        "", "", ""⟩ : AppState).alerts ∧
    (executeAction ⟨0, 0, "m", "act", false⟩
        ⟨[], [⟨0, 0, "m", "act", false⟩, ⟨0, 1, "m2", "act2", false⟩], [],
          "", "", ""⟩).alerts.length + 1 ≠
      (⟨[], [⟨0, 0, "m", "act", false⟩, ⟨0, 1, "m2", "act2", false⟩], [],
        "", "", ""⟩ : AppState).alerts.length := by
  decide

/-- Witness for C1 at a singleton active collection. -/
theorem executeAction_pending_once_witness :
    (executeAction ⟨3, 7, "msg", "adjust", false⟩
        ⟨[], [⟨3, 7, "msg", "adjust", false⟩], [], "", "", ""⟩).alerts.length + 1 =
      (⟨[], [⟨3, 7, "msg", "adjust", false⟩], [], "", "", ""⟩ : AppState).alerts.length :=
  (executeAction_pending_once ⟨3, 7, "msg", "adjust", false⟩
      ⟨[], [⟨3, 7, "msg", "adjust", false⟩], [], "", "", ""⟩
      (by decide) rfl (by decide)).2.1

/-! ### C2 -/

/-- C2 (code bug): `executeAction` is not idempotent on the same alert value.
The state update marks a fresh copy of the list entry and immediately filters
it out, so the caller's alert value keeps `executed = false` and the guard
never fires on a repeat call: calling twice appends two log entries (the claim
requires the second call to be a no-op).  The active collection is nonetheless
unchanged by the second call. -/
theorem executeAction_double_call_logs_twice :
    (executeAction ⟨1, 1, "m", "act", false⟩
        (executeAction ⟨1, 1, "m", "act", false⟩
          ⟨[], [⟨1, 1, "m", "act", false⟩], [], "", "", ""⟩)).executedActions.length
      = 2 ∧
    (executeAction ⟨1, 1, "m", "act", false⟩
        (executeAction ⟨1, 1, "m", "act", false⟩
          ⟨[], [⟨1, 1, "m", "act", false⟩], [], "", "", ""⟩)).alerts = [] := by
  decide

/-! ### C3 -/

lemma hazardTask_alerts_shape (satId : Nat) (feed : Option (List String))
    (nCme : Nat) (chance r2 : ℚ) (nConj : Nat) (s : AppState) :
    ∃ l, (hazardTask satId feed nCme chance r2 nConj s).alerts = s.alerts ++ l ∧
      ∀ a ∈ l, a.executed = false := by
  unfold hazardTask
  cases hconj : simulateConjunctionAlert satId chance r2 nConj with
  | none =>
    simp only [hconj]
    split
    · exact ⟨[⟨nCme, satId, (fetchCMEAlerts feed).headD "",
        "Switch off non-critical electronics and shield instruments", false⟩],
        rfl, by simp⟩
    · exact ⟨[], by simp, by simp⟩
  | some c =>
    have hc : c.executed = false := by
      unfold simulateConjunctionAlert at hconj
      split at hconj
      · exact absurd hconj (by simp)
      · rw [Option.some.injEq] at hconj
        rw [← hconj]
    simp only [hconj]
    split
    · refine ⟨[⟨nCme, satId, (fetchCMEAlerts feed).headD "",
        "Switch off non-critical electronics and shield instruments", false⟩, c],
        ?_, ?_⟩
      · simp
      · simp [hc]
    · exact ⟨[c], rfl, by simp [hc]⟩

/-- C3: every operation preserves the invariant that the active collection
holds only pending (`executed = false`) alerts: `addSatellite` leaves the
collection unchanged, the hazard-evaluation task appends only alerts created
with `executed = false`, and `executeAction` removes every entry it marks in
the same transition. -/
theorem active_alerts_all_pending (s : AppState) (now nCme nConj satId : Nat)
    (feed : Option (List String)) (chance r2 : ℚ) (al : Alert)
    (h : ∀ a ∈ s.alerts, a.executed = false) :
    (∀ a ∈ (addSatellite s now).1.alerts, a.executed = false) ∧
    (∀ a ∈ (hazardTask satId feed nCme chance r2 nConj s).alerts,
      a.executed = false) ∧
    (∀ a ∈ (executeAction al s).alerts, a.executed = false) := by
  refine ⟨?_, ?_, ?_⟩
  · have halts : (addSatellite s now).1.alerts = s.alerts := by
      unfold addSatellite; split <;> rfl
    rw [halts]; exact h
  · obtain ⟨l, hl, hlf⟩ := hazardTask_alerts_shape satId feed nCme chance r2 nConj s
    rw [hl]
    intro a ha
    rcases List.mem_append.mp ha with h1 | h2
    · exact h a h1
    · exact hlf a h2
  · by_cases he : al.executed = false
    · rw [executeAction_alerts_eq al s he]
      intro a ha
      exact h a (List.mem_filter.mp ha).1
    · rw [Bool.not_eq_false] at he
      have hid : executeAction al s = s := by
        unfold executeAction; rw [if_pos he]
      rw [hid]; exact h

/-- Witness for C3: after executing one of two same-satellite alerts, the
surviving active alert is still pending. -/
theorem active_alerts_all_pending_witness :
    (⟨5, 1, "x", "y", false⟩ : Alert).executed = false :=
  (active_alerts_all_pending
      ⟨[], [⟨5, 1, "x", "y", false⟩, ⟨2, 1, "m", "a", false⟩], [], "", "", ""⟩
      0 0 0 1 none 0 0 ⟨2, 1, "m", "a", false⟩ (by decide)).2.2
    ⟨5, 1, "x", "y", false⟩ (by decide)

/-! ### C4 -/

lemma hazardTask_alerts_cases (satId : Nat) (feed : Option (List String))
    (nCme : Nat) (chance r2 : ℚ) (nConj : Nat) (s : AppState) :
    (hazardTask satId feed nCme chance r2 nConj s).alerts =
      s.alerts ++
        (if 0 < (fetchCMEAlerts feed).length then
          [⟨nCme, satId, (fetchCMEAlerts feed).headD "",
            "Switch off non-critical electronics and shield instruments", false⟩]
         else []) ++
        (simulateConjunctionAlert satId chance r2 nConj).toList := by
  unfold hazardTask
  cases hconj : simulateConjunctionAlert satId chance r2 nConj with
  | none => simp only [hconj, Option.toList]; split <;> simp
  | some c => simp only [hconj, Option.toList]; split <;> simp

lemma conj_action_eq (satId : Nat) (chance r2 : ℚ) (nConj : Nat) (c : Alert)
    (hc : simulateConjunctionAlert satId chance r2 nConj = some c) :
    c.action = "Perform evasive maneuver or adjust orbit" := by
  unfold simulateConjunctionAlert at hc
  split at hc
  · exact absurd hc (by simp)
  · rw [Option.some.injEq] at hc
    rw [← hc]

/-- C4 (amended: the fixed mitigation string is
`"Switch off non-critical electronics and shield instruments"`): when the feed
succeeds and at least one advisory message mentions a coronal mass ejection,
the hazard task appends exactly one shield-action alert, carrying the first
matching message, the triggering satellite's id and `executed = false`; when
the feed fails, `fetchCMEAlerts` degrades to the empty list and no
shield-action alert is created; the task is a total function, so no failure
can crash it. -/
theorem hazardTask_cme_one_shield_alert (satId : Nat) (msgs : List String)
    (nCme : Nat) (chance r2 : ℚ) (nConj : Nat) (s : AppState)
    (hm : msgs.filter (fun m => containsSub m "Coronal Mass Ejection") ≠ []) :
    ((hazardTask satId (some msgs) nCme chance r2 nConj s).alerts.filter
        (fun a => a.action ==
          "Switch off non-critical electronics and shield instruments")) =
      (s.alerts.filter (fun a => a.action ==
          "Switch off non-critical electronics and shield instruments")) ++
        [⟨nCme, satId,
          (msgs.filter (fun m => containsSub m "Coronal Mass Ejection")).headD "",
          "Switch off non-critical electronics and shield instruments", false⟩] ∧
    ((hazardTask satId none nCme chance r2 nConj s).alerts.filter
        (fun a => a.action ==
          "Switch off non-critical electronics and shield instruments")) =
      (s.alerts.filter (fun a => a.action ==
          "Switch off non-critical electronics and shield instruments")) ∧
    fetchCMEAlerts none = [] := by
  have hconjfilter : ∀ ch : ℚ,
      ((simulateConjunctionAlert satId ch r2 nConj).toList.filter
        (fun a => a.action ==
          "Switch off non-critical electronics and shield instruments")) = [] := by
    intro ch
    cases hc : simulateConjunctionAlert satId ch r2 nConj with
    | none => rfl
    | some c =>
      have hact := conj_action_eq satId ch r2 nConj c hc
      have hne : (c.action ==
          "Switch off non-critical electronics and shield instruments") = false := by
        rw [hact]; decide
      simp [Option.toList, hne]
  refine ⟨?_, ?_, rfl⟩
  · have hlen : 0 < (fetchCMEAlerts (some msgs)).length := by
      simp only [fetchCMEAlerts]
      exact List.length_pos.mpr hm
    rw [hazardTask_alerts_cases, if_pos hlen, List.filter_append,
      List.filter_append, hconjfilter]
    simp only [fetchCMEAlerts, List.filter_cons, List.filter_nil, beq_self_eq_true,
      if_true, List.append_nil]
  · have hlen : ¬ 0 < (fetchCMEAlerts none).length := by simp [fetchCMEAlerts]
    rw [hazardTask_alerts_cases, if_neg hlen, List.filter_append,
      List.filter_append, hconjfilter]
    simp

/-- C4 counterexample: at a feed that returns one CME advisory, the single
alert the task creates carries the action string
`"Switch off non-critical electronics and shield instruments"`, not the
`"power down non-critical systems, shield instruments"` the claim states. -/
theorem hazardTask_action_string_cex :
    ((hazardTask 1 (some ["Coronal Mass Ejection detected"]) 5 0 0 9
        st0).alerts.map Alert.action) =
      ["Switch off non-critical electronics and shield instruments"] ∧
    "Switch off non-critical electronics and shield instruments" ≠
      "power down non-critical systems, shield instruments" := by
  constructor
  · have hc : simulateConjunctionAlert 1 (0 : ℚ) 0 9 = none := by
      unfold simulateConjunctionAlert
      rw [if_pos (by norm_num)]
    rw [hazardTask_alerts_cases, hc]
    decide
  · decide

/-- Witness for C4 at the one-advisory feed of the spec's scenario. -/
theorem hazardTask_cme_one_shield_alert_witness :
    ((hazardTask 1 (some ["Coronal Mass Ejection detected"]) 5 0 0 9
        st0).alerts.filter
        (fun a => a.action ==
          "Switch off non-critical electronics and shield instruments")) =
      (st0.alerts.filter (fun a => a.action ==
          "Switch off non-critical electronics and shield instruments")) ++
        [⟨5, 1,
          (["Coronal Mass Ejection detected"].filter
            (fun m => containsSub m "Coronal Mass Ejection")).headD "",
          "Switch off non-critical electronics and shield instruments", false⟩] :=
  (hazardTask_cme_one_shield_alert 1 ["Coronal Mass Ejection detected"] 5 0 0 9
      st0 (by decide)).1

/-! ### C5 -/

/-- C5 (amended: the fixed message is
`"Conjunction alert: Possible collision with space debris!"` and the fixed
action `"Perform evasive maneuver or adjust orbit"`): on a draw below `0.4` no
alert is produced; otherwise exactly one alert is produced with those fixed
texts, the triggering satellite's id and `executed = false`. -/
theorem simulateConjunction_branches (sid : Nat) (chance r2 : ℚ) (now : Nat)
    (h0 : 0 ≤ chance) (h1 : chance < 1) :
    (chance < 2/5 → simulateConjunctionAlert sid chance r2 now = none) ∧
    (2/5 ≤ chance → simulateConjunctionAlert sid chance r2 now =
      some ⟨now + (⌊r2 * 1000⌋).toNat, sid,
        "Conjunction alert: Possible collision with space debris!",
        "Perform evasive maneuver or adjust orbit", false⟩) := by
  constructor
  · intro hlt
    unfold simulateConjunctionAlert
    rw [if_pos hlt]
  · intro hge
    unfold simulateConjunctionAlert
    rw [if_neg (not_lt.mpr hge)]

/-- C5 counterexample: on the draw `1/2` the produced alert's message is
`"Conjunction alert: Possible collision with space debris!"`, not the
`"possible collision with debris"` the claim states. -/
theorem simulateConjunction_message_cex :
    ((simulateConjunctionAlert 1 (1/2) 0 9).map Alert.message) =
      some "Conjunction alert: Possible collision with space debris!" ∧
    "Conjunction alert: Possible collision with space debris!" ≠
      "possible collision with debris" := by
  constructor
  · unfold simulateConjunctionAlert
    rw [if_neg (by norm_num)]
    rfl
  · decide

/-- Witness for C5 on the draw `1/2` (above the `0.4` threshold). -/
theorem simulateConjunction_branches_witness :
    simulateConjunctionAlert 3 (1/2) 0 9 =
      some ⟨9 + (⌊(0 : ℚ) * 1000⌋).toNat, 3,
        "Conjunction alert: Possible collision with space debris!",
        "Perform evasive maneuver or adjust orbit", false⟩ :=
  (simulateConjunction_branches 3 (1/2) 0 9 (by norm_num) (by norm_num)).2
    (by norm_num)

/-! ### C6 -/

/-- C6: on a triple of non-empty inputs, `addSatellite` appends exactly one
satellite at the end of the registry, whose fields are the supplied name and
the `parseFloat` values of the supplied numeric strings and whose id is the
creation timestamp, and schedules the delayed hazard-evaluation task for that
new satellite. -/
theorem addSatellite_valid_appends (s : AppState) (now : Nat)
    (h1 : s.name ≠ "") (h2 : s.altitude ≠ "") (h3 : s.inclination ≠ "") :
    (addSatellite s now).1.satellites =
      s.satellites ++
        [⟨now, s.name, parseFloat s.altitude, parseFloat s.inclination⟩] ∧
    (addSatellite s now).1.satellites.length = s.satellites.length + 1 ∧
    (addSatellite s now).2 = some now := by
  rw [addSatellite_of_valid s now h1 h2 h3]
  refine ⟨rfl, ?_, rfl⟩
  simp

/-- Witness for C6 at the spec's `("ISS", 400, 51.6)` scenario. -/
theorem addSatellite_valid_appends_witness :
    (addSatellite ⟨[], [], [], "ISS", "400", "51.6"⟩ 42).1.satellites =
      [⟨42, "ISS", parseFloat "400", parseFloat "51.6"⟩] ∧
    (addSatellite ⟨[], [], [], "ISS", "400", "51.6"⟩ 42).2 = some 42 :=
  ⟨(addSatellite_valid_appends ⟨[], [], [], "ISS", "400", "51.6"⟩ 42
      (by decide) (by decide) (by decide)).1,
    (addSatellite_valid_appends ⟨[], [], [], "ISS", "400", "51.6"⟩ 42
      (by decide) (by decide) (by decide)).2.2⟩

/-! ### C7 -/

/-- C7 (amended: only emptiness is validated): if any of the three inputs is
the empty string, `addSatellite` returns the state unchanged and schedules no
task, surfacing no error; when all three are non-empty no further validation
occurs — a record is always created, unparsable numeric strings included
(their fields become the `NaN` parse result), as are negative or nonsensical
values. -/
theorem addSatellite_empty_guard (s : AppState) (now : Nat) :
    ((s.name = "" ∨ s.altitude = "" ∨ s.inclination = "") →
      addSatellite s now = (s, none)) ∧
    (s.name ≠ "" → s.altitude ≠ "" → s.inclination ≠ "" →
      (addSatellite s now).1.satellites =
        s.satellites ++
          [⟨now, s.name, parseFloat s.altitude, parseFloat s.inclination⟩]) := by
  constructor
  · intro h
    unfold addSatellite
    rw [if_pos h]
  · intro h1 h2 h3
    rw [addSatellite_of_valid s now h1 h2 h3]

/-- C7 counterexample: the non-empty unparsable altitude `"abc"` passes the
guard, so a record is created (the claim says none may be): the registry gains
the satellite `"A"`, its altitude the `NaN` result of the parse. -/
theorem addSatellite_unparsable_cex :
    ((addSatellite ⟨[], [], [], "A", "abc", "1"⟩ 3).1.satellites.map
      Satellite.name) = ["A"] ∧
    parseFloat "abc" = none := by
  constructor
  · decide
  · decide

/-- Witness for C7 with an empty altitude input (the spec's empty-altitude
scenario). -/
theorem addSatellite_empty_guard_witness :
    addSatellite ⟨[], [], [], "ISS", "", "51.6"⟩ 7 =
      (⟨[], [], [], "ISS", "", "51.6"⟩, none) :=
  (addSatellite_empty_guard ⟨[], [], [], "ISS", "", "51.6"⟩ 7).1
    (Or.inr (Or.inl rfl))

/-! ### C8 -/

lemma containsSub_unknown_marker (tail : String) :
    containsSub ("✅ Action executed for Unknown Satellite: " ++ tail)
      "Unknown Satellite" = true := by
  unfold containsSub
  rw [List.any_eq_true]
  refine ⟨"Unknown Satellite: ".data ++ tail.data, ?_, ?_⟩
  · rw [List.mem_tails, String.data_append]
    have hsplit : ("✅ Action executed for Unknown Satellite: ").data =
        "✅ Action executed for ".data ++ "Unknown Satellite: ".data := by decide
    rw [hsplit, List.append_assoc]
    exact List.suffix_append _ _
  · rw [List.isPrefixOf_iff_prefix]
    have hsplit2 : ("Unknown Satellite: ").data =
        "Unknown Satellite".data ++ ": ".data := by decide
    rw [hsplit2, List.append_assoc]
    exact List.prefix_append _ _

/-- C8: executing a pending alert whose `satelliteId` matches no satellite in
the registry still appends a log entry — with the fallback label
`"Unknown Satellite"` in place of the satellite name — and, the transition
being a total function, cannot crash. -/
theorem executeAction_unknown_satellite (a : Alert) (s : AppState)
    (hex : a.executed = false)
    (hmiss : ∀ sat ∈ s.satellites, sat.id ≠ a.satelliteId) :
    (executeAction a s).executedActions = s.executedActions ++
      ["✅ Action executed for Unknown Satellite: " ++ a.action] ∧
    containsSub ("✅ Action executed for Unknown Satellite: " ++ a.action)
      "Unknown Satellite" = true := by
  have hfind : s.satellites.find? (fun sat => sat.id == a.satelliteId) = none := by
    apply List.find?_eq_none.mpr
    intro x hx
    simp only [beq_iff_eq]
    exact hmiss x hx
  have hres : resolveSatName s.satellites a.satelliteId = "Unknown Satellite" := by
    unfold resolveSatName
    rw [hfind]
  constructor
  · rw [executeAction_log_eq a s hex, hres]
    have hcat : ("✅ Action executed for " ++ "Unknown Satellite" ++ ": " : String) =
        "✅ Action executed for Unknown Satellite: " := by decide
    rw [hcat]
  · exact containsSub_unknown_marker a.action

/-- Witness for C8: a registry holding one satellite with a different id. -/
theorem executeAction_unknown_satellite_witness :
    (executeAction ⟨4, 9, "m", "act", false⟩
        ⟨[⟨2, "Sat", none, none⟩], [⟨4, 9, "m", "act", false⟩], [],
          "", "", ""⟩).executedActions =
      [] ++ ["✅ Action executed for Unknown Satellite: " ++ "act"] :=
  (executeAction_unknown_satellite ⟨4, 9, "m", "act", false⟩
      ⟨[⟨2, "Sat", none, none⟩], [⟨4, 9, "m", "act", false⟩], [], "", "", ""⟩
      rfl (by decide)).1

/-! ### C9 -/

/-- C9 (amended: ids are creation-time-derived, not unconditionally unique):
the id of a satellite created by `addSatellite` is its creation timestamp, and
the id of a conjunction alert is its creation timestamp plus the random offset
`⌊r * 1000⌋`, so two creations whose underlying timestamps (plus offsets)
differ get different ids — while creations at one and the same instant may
collide. -/
theorem ids_are_creation_timestamps (s s' : AppState) (n n' : Nat)
    (d : Satellite)
    (hv1 : s.name ≠ "") (hv2 : s.altitude ≠ "") (hv3 : s.inclination ≠ "")
    (hw1 : s'.name ≠ "") (hw2 : s'.altitude ≠ "") (hw3 : s'.inclination ≠ "")
    (hnn : n ≠ n') (sid sid' : Nat) (c c' r r' : ℚ) (m m' : Nat)
    (hc : 2/5 ≤ c) (hc' : 2/5 ≤ c')
    (hm : m + (⌊r * 1000⌋).toNat ≠ m' + (⌊r' * 1000⌋).toNat) :
    ((addSatellite s n).1.satellites.getLastD d).id ≠
      ((addSatellite s' n').1.satellites.getLastD d).id ∧
    (simulateConjunctionAlert sid c r m).map Alert.id ≠
      (simulateConjunctionAlert sid' c' r' m').map Alert.id := by
  constructor
  · rw [addSatellite_of_valid s n hv1 hv2 hv3,
      addSatellite_of_valid s' n' hw1 hw2 hw3]
    simp only [List.getLastD_concat]
    exact hnn
  · unfold simulateConjunctionAlert
    rw [if_neg (not_lt.mpr hc), if_neg (not_lt.mpr hc')]
    simpa using hm

/-- C9 counterexample: two `addSatellite` calls in the same millisecond
(timestamp `7`) create two distinct satellites (`"A"` and `"B"`) that share
the id `7`, refuting unconditional uniqueness. -/
theorem same_timestamp_id_collision_cex :
    ((addSatellite
        { (addSatellite ⟨[], [], [], "A", "1", "2"⟩ 7).1 with
            name := "B", altitude := "3", inclination := "4" }
        7).1.satellites.map Satellite.id) = [7, 7] ∧
    ((addSatellite
        { (addSatellite ⟨[], [], [], "A", "1", "2"⟩ 7).1 with
            name := "B", altitude := "3", inclination := "4" }
        7).1.satellites.map Satellite.name) = ["A", "B"] := by
  constructor
  · decide
  · decide

/-- Witness for C9: satellites created at timestamps `1` and `2`, and
conjunction alerts created at timestamps `3` and `4` with offset `0`. -/
theorem ids_are_creation_timestamps_witness :
    ((addSatellite ⟨[], [], [], "A", "1", "2"⟩ 1).1.satellites.getLastD
        ⟨0, "", none, none⟩).id ≠
      ((addSatellite ⟨[], [], [], "A", "1", "2"⟩ 2).1.satellites.getLastD
        ⟨0, "", none, none⟩).id :=
  (ids_are_creation_timestamps ⟨[], [], [], "A", "1", "2"⟩
      ⟨[], [], [], "A", "1", "2"⟩ 1 2 ⟨0, "", none, none⟩
      (by decide) (by decide) (by decide) (by decide) (by decide) (by decide)
      (by decide) 0 0 (1/2) (1/2) 0 0 3 4
      (by norm_num) (by norm_num) (by norm_num)).1
